import Mathlib

/-!
Verification development for the Grant_MVP_backend Django application.

The Python source is shallowly embedded: Django model rows become Lean
structures, the key-value cache becomes a function from key strings to
optional entries, and each HTTP view's `post`/`retrieve` body becomes a pure
state-transition function.  Timestamps are modelled in whole seconds as `Nat`
(the code never uses sub-second precision in a way the claims depend on).
-/

/-- Metadata dict produced by `ApplicationStep3View.post` for a temporarily
stored upload: keys `original_name`, `file_path`, `file_size`. -/
structure FileMeta where
  original_name : String
  file_path : String
  file_size : Nat
deriving DecidableEq, Repr

/-- Python values as they occur in wizard payloads and cache buckets:
`None`, ints, strings, the file-metadata dicts of step 3, and lists of
such dicts (the `certificates` entry). -/
inductive Val where
  | vnone : Val
  | num : Nat → Val
  | str : String → Val
  | fileMeta : FileMeta → Val
  | fileList : List FileMeta → Val
deriving DecidableEq, Repr

/-- Python truthiness of a `Val` (`bool(v)`). -/
def valTruthy : Val → Bool
  | .vnone => false
  | .num n => n != 0
  | .str s => s != ""
  | .fileMeta _ => true
  | .fileList l => l != []

/-- Python `str()` of a value, as interpolated into f-string cache keys.
The reprs of dict and list values are abstracted (the application never
interpolates them into a key). -/
def pyStr : Val → String
  | .vnone => "None"
  | .num n => Nat.repr n
  | .str s => s
  | .fileMeta _ => "dict"
  | .fileList _ => "list"

/-- Validated payload dict of one wizard step (string-keyed). -/
abbrev Payload := List (String × Val)

/-- Dict lookup `p.get(k)` on a payload. -/
def lookupKey (p : Payload) (k : String) : Option Val :=
  (p.find? (fun kv => kv.1 == k)).map (·.2)

/-- A DRF response, reduced to the fields the claims mention. -/
structure HttpResp where
  status : Nat
  success : Bool
  message : String
deriving DecidableEq, Repr

/-- Status pipeline of `Application.STATUS_CHOICES`. -/
inductive AppStatus where
  | yuborilgan | mahalla | tuman | hudud
  | oxirgi_tasdiqlash | mukofotlangan | rad_etilgan
deriving DecidableEq, Repr

/-- Stored status code string of each `STATUS_CHOICES` entry. -/
def statusCode : AppStatus → String
  | .yuborilgan => "yuborilgan"
  | .mahalla => "mahalla"
  | .tuman => "tuman"
  | .hudud => "hudud"
  | .oxirgi_tasdiqlash => "oxirgi_tasdiqlash"
  | .mukofotlangan => "mukofotlangan"
  | .rad_etilgan => "rad_etilgan"

/-- Display name of each `STATUS_CHOICES` entry (`get_status_display`). -/
def statusDisplay : AppStatus → String
  | .yuborilgan => "Yuborilgan"
  | .mahalla => "Mahalla jarayonida"
  | .tuman => "Tuman"
  | .hudud => "Hudud"
  | .oxirgi_tasdiqlash => "Oxirgi tasdiqlash"
  | .mukofotlangan => "Mukofotlangan"
  | .rad_etilgan => "Rad etilgan"

/-- Notification variants passed as `notification_type` by
`NotificationService`. -/
inductive NotifType where
  | application_created | application_updated | application_rejected | reward_won
deriving DecidableEq, Repr

/-- Content of a notification row created by
`NotificationService.create_notification` (auto primary key and the
`content_type` generic plumbing elided; timestamps as `Nat` ticks). -/
structure NotifData where
  recipient : Nat
  object_id : Nat
  notification_type : NotifType
  title : String
  status : String
  sent_time : Nat
  extra_data : Payload
deriving DecidableEq, Repr

/-- In-memory state of an `Application` model instance as far as
`Application.save` consults it: primary key, `_state.adding`, the current
`status` field and the `_original_status` tracker set by `__init__`, plus
the fields read by the notification service. -/
structure AppInstance where
  pk : Option Nat
  stateAdding : Bool
  status : AppStatus
  origStatus : Option AppStatus
  userId : Nat
  rewardName : String
  rewardDescription : String
  areaDisplay : String
  district : String
  activity : String
deriving DecidableEq, Repr

/-- Construction of `NotificationService.create_notification`: builds the row
with status `'sent'` and the given payload snapshot. -/
def create_notification (recipient object_id : Nat) (ntype : NotifType)
    (title : String) (now : Nat) (extra : Payload) : NotifData :=
  { recipient := recipient, object_id := object_id, notification_type := ntype,
    title := title, status := "sent", sent_time := now, extra_data := extra }

/-- Translation of `NotificationService.create_application_created_notification`. -/
def createApplicationCreatedNotification (a : AppInstance) (now : Nat) : NotifData :=
  create_notification a.userId (a.pk.getD 0) .application_created
    ("Sizning \x27" ++ a.rewardName ++ "\x27 mukofoti uchun arizangiz muvaffaqiyatli yuborildi.")
    now
    [("reward_name", .str a.rewardName), ("area", .str a.areaDisplay),
     ("district", .str a.district), ("activity", .str a.activity)]

/-- Translation of `NotificationService.create_application_in_process_notification`. -/
def createApplicationInProcessNotification (a : AppInstance) (old : AppStatus)
    (now : Nat) : NotifData :=
  create_notification a.userId (a.pk.getD 0) .application_updated
    ("Arizangiz ko\x27rib chiqilmoqda,  Arizangiz " ++ statusDisplay a.status ++ " bosqichida.")
    now
    [("reward_name", .str a.rewardName), ("old_status", .str (statusCode old)),
     ("new_status", .str (statusCode a.status)),
     ("status_display", .str (statusDisplay a.status))]

/-- Translation of `NotificationService.create_application_last_process_notification`. -/
def createApplicationLastProcessNotification (a : AppInstance) (now : Nat) : NotifData :=
  create_notification a.userId (a.pk.getD 0) .application_updated
    "Ariza holati yangilandi" now
    [("reward_name", .str a.rewardName), ("updated_date", .num now)]

/-- Translation of `NotificationService.create_application_won_notification`
(the title text reproduces the source verbatim, including its mojibake). -/
def createApplicationWonNotification (a : AppInstance) (now : Nat) : NotifData :=
  create_notification a.userId (a.pk.getD 0) .reward_won
    ("Tabriklaymiz! Sizning " ++ a.rewardName ++ "\x27 mukofoti uchun arizangiz barcha bosqichlardan muvaffaqiyatli oâ€˜tdi va yakuniy qaror bilan ushbu mukofotga loyiq deb topildingiz.")
    now
    [("reward_name", .str a.rewardName),
     ("reward_description", .str a.rewardDescription), ("won_date", .num now)]

/-- Translation of `NotificationService.create_application_rejected_notification`. -/
def createApplicationRejectedNotification (a : AppInstance) (now : Nat) : NotifData :=
  create_notification a.userId (a.pk.getD 0) .application_rejected
    ("Afsuski, \x27" ++ a.rewardName ++ "\x27 mukofoti uchun arizangiz rad etildi.")
    now
    [("reward_name", .str a.rewardName), ("rejected_date", .num now)]

/-- Translation of `Application._handle_status_change_notification`: the
fixed dispatch table on the new status.  A new status of `yuborilgan` has no
branch and creates nothing. -/
def handleStatusChangeNotification (a : AppInstance) (old : AppStatus)
    (now : Nat) : List NotifData :=
  match a.status with
  | .mahalla | .tuman | .hudud => [createApplicationInProcessNotification a old now]
  | .oxirgi_tasdiqlash => [createApplicationLastProcessNotification a now]
  | .mukofotlangan => [createApplicationWonNotification a now]
  | .rad_etilgan => [createApplicationRejectedNotification a now]
  | .yuborilgan => []

/-- Translation of `Application.save` together with the `post_save` signal
`handle_application_notifications` fired inside the ORM save (for non-created
saves the signal's status-change body is commented out in the source and
creates nothing).  Returns the saved instance (with `_original_status`
re-tracked) and the list of notification rows created by this save.
`newPk` stands for the primary key the database would assign to an insert. -/
def appSave (now newPk : Nat) (a : AppInstance) : AppInstance × List NotifData :=
  let isNew := a.stateAdding
  let saved : AppInstance :=
    { a with pk := if isNew then some newPk else a.pk, stateAdding := false }
  let signalNotifs : List NotifData :=
    if isNew then [createApplicationCreatedNotification saved now] else []
  let changeNotifs : List NotifData :=
    match a.origStatus with
    | some old =>
        if ¬isNew ∧ a.pk.isSome ∧ old ≠ a.status then
          handleStatusChangeNotification saved old now
        else []
    | none => []
  ({ saved with origStatus := some a.status }, signalNotifs ++ changeNotifs)

/-- An `Application` instance as `Model.from_db` materialises it: primary key
set, `_state.adding` false, `_original_status` tracking the loaded status. -/
def appLoaded (pk : Nat) (status : AppStatus) (userId : Nat)
    (rewardName rewardDescription areaDisplay district activity : String) : AppInstance :=
  { pk := some pk, stateAdding := false, status := status, origStatus := some status,
    userId := userId, rewardName := rewardName, rewardDescription := rewardDescription,
    areaDisplay := areaDisplay, district := district, activity := activity }

/-- Persisted notification row as the notification views see it (fields the
claims mention). -/
structure NotificationRow where
  id : Nat
  recipient : Nat
  notification_type : NotifType
  title : String
  read_at : Option Nat
deriving DecidableEq, Repr

/-- Translation of `Notification.mark_as_read`: sets `read_at` only when it
is still null. -/
def mark_as_read (now : Nat) (n : NotificationRow) : NotificationRow :=
  if n.read_at = none then { n with read_at := some now } else n

/-- Per-row effect of `MarkAllNotificationsAsReadView.post`: the queryset
filters on the recipient and `read_at__isnull=True`, and additionally on
`id__in=notification_ids` when a non-empty id list was posted. -/
def markAllAsReadOne (now uid : Nat) (ids : List Nat) (n : NotificationRow) :
    NotificationRow :=
  if n.recipient = uid ∧ n.read_at = none ∧ (ids = [] ∨ n.id ∈ ids) then
    { n with read_at := some now }
  else n

/-- Translation of `MarkAllNotificationsAsReadView.post` over the notification
table. -/
def markAllAsReadPost (now uid : Nat) (ids : List Nat)
    (ns : List NotificationRow) : List NotificationRow :=
  ns.map (markAllAsReadOne now uid ids)

/-- Translation of `NotificationDetailView.retrieve`: marks the row as read
only when it was unread, and reports `was_marked_as_read`. -/
def notificationDetailRetrieve (now : Nat) (n : NotificationRow) :
    NotificationRow × Bool :=
  let wasUnread := n.read_at.isNone
  (if wasUnread then mark_as_read now n else n, wasUnread)

/-- Persisted password reset code row. -/
structure PasswordResetCode where
  phone_number : String
  code : String
  created_at : Nat
deriving DecidableEq, Repr

/-- Translation of `PasswordResetCode.is_valid`:
`(timezone.now() - self.created_at).seconds < 300`.  Python's
`timedelta.seconds` is the seconds component after whole days are split off,
i.e. the elapsed whole seconds reduced modulo 86400 — not the total elapsed
seconds. -/
def PasswordResetCode.is_valid (c : PasswordResetCode) (now : Nat) : Bool :=
  ((now - c.created_at) % 86400) < 300

/-- Cache bucket of one wizard draft, as a string-keyed dict.  Step payload
entries hold dicts; `current_step` and `reward_id` hold scalars. -/
inductive CacheEntry where
  | payload : Payload → CacheEntry
  | val : Val → CacheEntry
deriving DecidableEq, Repr

/-- A cache bucket, keyed like a Python dict. -/
def Bucket := String → Option CacheEntry

/-- Dict assignment `b[k] = e`. -/
def bset (k : String) (e : CacheEntry) (b : Bucket) : Bucket :=
  fun k2 => if k2 = k then some e else b k2

/-- The empty bucket (`cache.get(session_key, {})` miss). -/
def emptyBucket : Bucket := fun _ => none

/-- Payload stored under a bucket key, defaulting to the empty dict
(`session_data.get('stepN_data', {})`). -/
def payloadOf (e : Option CacheEntry) : Payload :=
  match e with
  | some (.payload p) => p
  | _ => []

/-- Translation of `MultiStepApplicationMixin.get_session_key`.  The three
`Option Val` arguments are `request.data.get('reward_id')`,
`request.GET.get('reward_id')` and
`request.session.get('application_reward_id')`; Python's `or` chain takes the
first truthy one, and with no truthy reward id the per-user default key is
returned. -/
def getSessionKey (userId : Nat)
    (dataRewardId getRewardId sessionRewardId : Option Val) : String :=
  let rid : Option Val :=
    match dataRewardId with
    | some v => if valTruthy v then some v else
        (match getRewardId with
         | some w => if valTruthy w then some w else sessionRewardId
         | none => sessionRewardId)
    | none =>
        match getRewardId with
        | some w => if valTruthy w then some w else sessionRewardId
        | none => sessionRewardId
  match rid with
  | some v =>
      if valTruthy v then
        "application_draft_" ++ Nat.repr userId ++ "_" ++ pyStr v
      else "application_draft_" ++ Nat.repr userId
  | none => "application_draft_" ++ Nat.repr userId

/-- Key shape the spec attributes to every draft: a key determined by the
(user id, reward id) pair.  Used to compare the spec's wording with
`getSessionKey`. -/
def pairDraftKey (userId rewardId : Nat) : String :=
  "application_draft_" ++ Nat.repr userId ++ "_" ++ Nat.repr rewardId

/-- Bucket key `f'step{step}_data'` of one step's payload. -/
def dataStepKey (n : Nat) : String :=
  "step" ++ Nat.repr n ++ "_data"

/-- Translation of `MultiStepApplicationMixin.save_session_data` on the
bucket already fetched for the request's session key.  Returns the updated
bucket and the new `request.session['application_reward_id']` entry (the
second component; `none` means the session entry is left as it was).
`step = some n` with `n ≠ 0` is Python's truthy `step`; otherwise the payload
is merged key by key (`session_data.update(data)`). -/
def saveSessionData (b : Bucket) (data : Payload) (step : Option Nat) :
    Bucket × Option Val :=
  let b1 : Bucket :=
    match step with
    | some n =>
        if n ≠ 0 then
          bset "current_step" (.val (.num n)) (bset (dataStepKey n) (.payload data) b)
        else data.foldl (fun acc kv => bset kv.1 (.val kv.2) acc) b
    | none => data.foldl (fun acc kv => bset kv.1 (.val kv.2) acc) b
  match lookupKey data "reward_id" with
  | some v => (bset "reward_id" (.val v) b1, some v)
  | none => (b1, none)

/-- Outcome of a wizard step POST: the bucket stored back under the session
key, the session's `application_reward_id` entry, and the response. -/
structure StepOutcome where
  bucket : Bucket
  sessionRewardId : Option Val
  resp : HttpResp

/-- Python `str.strip()` (and DRF CharField whitespace trimming), written on
the character list so that it evaluates by kernel reduction. -/
def pyStrip (s : String) : String :=
  ⟨((s.data.dropWhile Char.isWhitespace).reverse.dropWhile Char.isWhitespace).reverse⟩

/-- Python `str.lower()`, written on the character list. -/
def pyLower (s : String) : String :=
  ⟨s.data.map Char.toLower⟩

/-- Python `str.endswith(pat)`, written on the character lists. -/
def pyEndsWith (s pat : String) : Bool :=
  pat.data.isSuffixOf s.data

/-- Translation of the `ApplicationStep2Serializer` validation: `activity`
(CharField, max 200) and `activity_description` (required, non-empty after
trimming, at most 200 characters, returned stripped). -/
def step2Validate (data : Payload) : Option Payload :=
  match lookupKey data "activity", lookupKey data "activity_description" with
  | some (.str a), some (.str d) =>
      let a := pyStrip a
      let d := pyStrip d
      if a ≠ "" ∧ a.length ≤ 200 ∧ d ≠ "" ∧ d.length ≤ 200 then
        some [("activity", .str a), ("activity_description", .str d)]
      else none
  | _, _ => none

/-- Translation of `ApplicationStep2View.post`: reject with 400 when
`step1_data` is absent from the bucket, otherwise validate and save the
step-2 payload. -/
def step2Post (b : Bucket) (sess : Option Val) (data : Payload) : StepOutcome :=
  if b "step1_data" = none then
    ⟨b, sess, ⟨400, false, "Avval 1-qadamni yakunlang"⟩⟩
  else
    match step2Validate data with
    | some vd =>
        let (b2, s2) := saveSessionData b vd (some 2)
        ⟨b2, s2.orElse (fun _ => sess),
         ⟨200, true, "Faoliyat ma\x27lumotlari saqlandi"⟩⟩
    | none => ⟨b, sess, ⟨400, false, "errors"⟩⟩

/-- An uploaded file as DRF hands it to the step-3 serializer. -/
structure UploadedFile where
  name : String
  size : Nat
deriving DecidableEq, Repr

/-- Extension allow-list check `any(name.lower().endswith(ext) ...)`. -/
def extAllowed (name : String) (exts : List String) : Bool :=
  exts.any (fun e => pyEndsWith (pyLower name) e)

/-- Translation of the `ApplicationStep3Serializer` validation of the
optional recommendation letter and the certificate list. -/
def step3Validate (recFile : Option UploadedFile) (certFiles : List UploadedFile) : Bool :=
  (match recFile with
   | some f => decide (f.size ≤ 10 * 1024 * 1024) &&
       extAllowed f.name [".pdf", ".doc", ".docx", ".jpg", ".jpeg", ".png"]
   | none => true) &&
  (decide (certFiles.length ≤ 10) &&
   certFiles.all (fun f => decide (f.size ≤ 10 * 1024 * 1024) &&
     extAllowed f.name [".pdf", ".jpg", ".jpeg", ".png", ".doc", ".docx"]))

/-- Translation of `ApplicationStep3View.post`.  The uuid-generated temporary
storage paths are nondeterministic in the source and are passed in as
`recPath` and `certPaths` (one per certificate, positionally). -/
def step3Post (b : Bucket) (sess : Option Val) (recFile : Option UploadedFile)
    (recPath : String) (certFiles : List UploadedFile) (certPaths : List String) :
    StepOutcome :=
  if b "step1_data" = none ∨ b "step2_data" = none then
    ⟨b, sess, ⟨400, false, "Avval oldingi qadamlarni yakunlang"⟩⟩
  else if step3Validate recFile certFiles then
    let recEntry : Payload :=
      match recFile with
      | some f => [("recommendation_letter", .fileMeta ⟨f.name, recPath, f.size⟩)]
      | none => []
    let certEntry : Payload :=
      if certFiles.isEmpty then []
      else [("certificates", .fileList
        (List.zipWith (fun (f : UploadedFile) p => FileMeta.mk f.name p f.size)
          certFiles certPaths))]
    let (b2, s2) := saveSessionData b (recEntry ++ certEntry) (some 3)
    ⟨b2, s2.orElse (fun _ => sess), ⟨200, true, "Hujjatlar saqlandi"⟩⟩
  else ⟨b, sess, ⟨400, false, "errors"⟩⟩

/-- Persisted `Application` row (fields the final-submission flow writes). -/
structure AppRow where
  id : Nat
  userId : Nat
  rewardId : Nat
  status : AppStatus
  area : String
  district : String
  neighborhood : String
  activity : String
  activity_description : String
  recommendation_letter : Option String
  source : String
deriving DecidableEq, Repr

/-- Persisted `Certificates` row (auto primary key elided; the stored file is
identified by the `ContentFile` name given to it). -/
structure CertRow where
  applicationId : Nat
  file : String
deriving DecidableEq, Repr

/-- Persisted `File` row (never written by the wizard flow). -/
structure FileRow where
  applicationId : Nat
  file : String
deriving DecidableEq, Repr

/-- Persisted `CustomUser` row, restricted to the fields
`ApplicationFinalSerializer.create` updates. -/
structure UserRow where
  id : Nat
  first_name : String
  last_name : String
  pinfl : String
  phone_number : String
deriving DecidableEq, Repr

/-- Relational store visible to the application wizard. -/
structure Db where
  rewards : List Nat
  apps : List AppRow
  certs : List CertRow
  files : List FileRow
  users : List UserRow
  nextAppId : Nat
deriving DecidableEq, Repr

/-- Stored area codes of `Application.AREA_CHOICES`. -/
def areaCodes : List String :=
  ["Andijon", "Buxoro", "Fargona", "Jizzax", "Namangan", "Navoiy",
   "Qashqadaryo", "Qoraqalpogiston", "Samarqand", "Sirdaryo", "Surxondaryo",
   "Toshkent", "Toshkent_shahri", "Xorazm"]

/-- Required non-blank CharField check of `ApplicationFinalSerializer` (DRF
CharField with `trim_whitespace`; non-string or absent values fail). -/
def charOk (v : Val) (maxLen : Nat) : Bool :=
  match v with
  | .str s => (pyStrip s) != "" && decide ((pyStrip s).length ≤ maxLen)
  | _ => false

/-- Dict lookup with Python's `.get` default of `None`. -/
def getVal (p : Payload) (k : String) : Val :=
  (lookupKey p k).getD .vnone

/-- String content of a validated CharField value. -/
def strOf (v : Val) : String :=
  match v with
  | .str s => s
  | _ => ""

/-- Translation of the declared-field validation of
`ApplicationFinalSerializer` over the `final_data` dict assembled by the
view: required CharFields, the `area` choice, the `reward_id` existence check
(`validate_reward_id`), and the JSON step-3 fields which accept anything. -/
def finalValidate (db : Db) (fd : Payload) : Bool :=
  charOk (getVal fd "first_name") 150 && charOk (getVal fd "last_name") 150 &&
  charOk (getVal fd "pinfl") 14 && charOk (getVal fd "phone_number") 20 &&
  (match getVal fd "area" with
   | .str s => areaCodes.contains s
   | _ => false) &&
  charOk (getVal fd "district") 200 && charOk (getVal fd "neighborhood") 200 &&
  charOk (getVal fd "activity") 200 &&
  (match getVal fd "activity_description" with
   | .str s => (pyStrip s) != ""
   | _ => false) &&
  (match getVal fd "reward_id" with
   | .num r => db.rewards.contains r
   | _ => false)

/-- Reward filter `Application.objects.filter(user=..., reward_id=...)` with
the raw value read from the cached step-1 payload: a missing (`None`) or
non-integer value matches no row of the non-null foreign key. -/
def rewardMatches (v : Val) (a : AppRow) : Bool :=
  match v with
  | .num r => a.rewardId == r
  | _ => false

/-- Certificate metadata list cached by step 3
(`step3_data.get('certificates', [])`). -/
def certsOf (step3 : Payload) : List FileMeta :=
  match lookupKey step3 "certificates" with
  | some (.fileList l) => l
  | _ => []

/-- The `final_data` dict assembled by `ApplicationFinalReviewView.post` from
the three cached step payloads. -/
def buildFinalData (b : Bucket) : Payload :=
  let step1 := payloadOf (b "step1_data")
  let step2 := payloadOf (b "step2_data")
  let step3 := payloadOf (b "step3_data")
  [("first_name", getVal step1 "first_name"),
   ("last_name", getVal step1 "last_name"),
   ("pinfl", getVal step1 "pinfl"),
   ("phone_number", getVal step1 "phone_number"),
   ("area", getVal step1 "area"),
   ("district", getVal step1 "district"),
   ("neighborhood", getVal step1 "neighborhood"),
   ("reward_id", getVal step1 "reward_id"),
   ("activity", getVal step2 "activity"),
   ("activity_description", getVal step2 "activity_description"),
   ("recommendation_letter", getVal step3 "recommendation_letter"),
   ("certificates", (lookupKey step3 "certificates").getD (.fileList [])),
   ("source", .str "web")]

/-- Translation of `ApplicationFinalSerializer.create`.  `fileOk path` models
whether reading the temporary file at `path` succeeds; a failed read is
caught (`except Exception: print(...)`) and the item is simply skipped, with
everything already written left in place.  No transaction wraps any of this
in the source. -/
def serializerCreate (db : Db) (uid : Nat) (fd : Payload)
    (fileOk : String → Bool) : Db × AppRow :=
  let users2 := db.users.map (fun u =>
    if u.id = uid then
      { u with first_name := strOf (getVal fd "first_name"),
               last_name := strOf (getVal fd "last_name"),
               pinfl := strOf (getVal fd "pinfl"),
               phone_number := strOf (getVal fd "phone_number") }
    else u)
  let recLetter : Option String :=
    match getVal fd "recommendation_letter" with
    | .fileMeta m => if m.file_path ≠ "" ∧ fileOk m.file_path then some m.original_name else none
    | _ => none
  let rewardId : Nat :=
    match getVal fd "reward_id" with
    | .num r => r
    | _ => 0
  let app : AppRow :=
    { id := db.nextAppId, userId := uid, rewardId := rewardId,
      status := .yuborilgan,
      area := strOf (getVal fd "area"),
      district := strOf (getVal fd "district"),
      neighborhood := strOf (getVal fd "neighborhood"),
      activity := strOf (getVal fd "activity"),
      activity_description := strOf (getVal fd "activity_description"),
      recommendation_letter := recLetter, source := strOf (getVal fd "source") }
  let certMetas : List FileMeta :=
    match getVal fd "certificates" with
    | .fileList l => l
    | _ => []
  let newCerts : List CertRow := certMetas.filterMap (fun m =>
    if m.file_path ≠ "" ∧ fileOk m.file_path then
      some { applicationId := app.id, file := m.original_name }
    else none)
  ({ db with users := users2, apps := db.apps ++ [app],
             certs := db.certs ++ newCerts, nextAppId := db.nextAppId + 1 }, app)

/-- Outcome of the final-review POST: the store, the cache bucket under the
request's session key (`none` once deleted), the session's
`application_reward_id` entry, and the response. -/
structure FinalOutcome where
  db : Db
  bucket : Option Bucket
  sessionRewardId : Option Val
  resp : HttpResp

/-- Required step keys checked by `ApplicationFinalReviewView`. -/
def requiredSteps : List String := ["step1_data", "step2_data", "step3_data"]

/-- Translation of `ApplicationFinalReviewView.post`: check the three cached
steps, re-check for a duplicate `(user, reward)` Application, validate the
assembled `final_data`, create the Application with its certificates, then
discard the cache bucket and the session entry. -/
def finalPost (db : Db) (uid : Nat) (b : Bucket) (sess : Option Val)
    (fileOk : String → Bool) : FinalOutcome :=
  match requiredSteps.find? (fun k => (b k).isNone) with
  | some k => ⟨db, some b, sess, ⟨400, false, k ++ " yakunlanmagan"⟩⟩
  | none =>
    let step1 := payloadOf (b "step1_data")
    let rewardIdVal := getVal step1 "reward_id"
    match db.apps.find? (fun a => a.userId == uid && rewardMatches rewardIdVal a) with
    | some _ =>
        ⟨db, some b, sess,
         ⟨400, false, "Siz ushbu mukofot uchun allaqachon ariza topshirgansiz"⟩⟩
    | none =>
        let fd := buildFinalData b
        if finalValidate db fd then
          let (db2, _) := serializerCreate db uid fd fileOk
          ⟨db2, none, none, ⟨201, true, "Ariza muvaffaqiyatli yuborildi"⟩⟩
        else ⟨db, some b, sess, ⟨400, false, "errors"⟩⟩

/-- Number of Application rows held by one `(user, reward)` pair. -/
def pairCount (apps : List AppRow) (u r : Nat) : Nat :=
  (apps.filter (fun a => a.userId == u && a.rewardId == r)).length

/-- Verification type choices of `PhoneVerification.verification_type`. -/
inductive VType where
  | signup | login | reset
deriving DecidableEq, Repr

/-- Persisted `PhoneVerification` row. -/
structure Verification where
  id : Nat
  phone_number : String
  code : String
  userId : Option Nat
  verification_type : VType
  expires_at : Nat
  is_used : Bool
deriving DecidableEq, Repr

/-- Registration form data cached by phase 1 of signup (restricted to the
fields phase 2 consults). -/
structure SignupForm where
  first_name : String
  last_name : String
  email : String
  phone_number : String
  password : String
deriving DecidableEq, Repr

/-- Persisted `CustomUser` row as signup creates it (restricted fields). -/
structure AccountUser where
  id : Nat
  email : String
  phone_number : String
deriving DecidableEq, Repr

/-- Mutable state touched by the signup endpoints: the `PhoneVerification`
table, the users table, and the cache entries `signup_data_{verification_id}`. -/
structure SignupState where
  verifications : List Verification
  users : List AccountUser
  signupCache : List (Nat × SignupForm)
  nextVerificationId : Nat
  nextUserId : Nat
deriving DecidableEq, Repr

/-- Cache write `cache.set(f"signup_data_{vid}", form)`. -/
def cacheSet (vid : Nat) (form : SignupForm) (c : List (Nat × SignupForm)) :
    List (Nat × SignupForm) :=
  (vid, form) :: c.filter (fun kv => kv.1 ≠ vid)

/-- Cache delete `cache.delete(f"signup_data_{vid}")`. -/
def cacheDelete (vid : Nat) (c : List (Nat × SignupForm)) :
    List (Nat × SignupForm) :=
  c.filter (fun kv => kv.1 ≠ vid)

/-- Translation of `PhoneVerification.create_signup_code`: a fresh unused
signup verification with a 5-minute expiry and no user. -/
def createSignupCode (phone code : String) (now : Nat) (s : SignupState) :
    SignupState × Nat :=
  let v : Verification :=
    { id := s.nextVerificationId, phone_number := phone, code := code,
      userId := none, verification_type := .signup,
      expires_at := now + 300, is_used := false }
  ({ s with verifications := s.verifications ++ [v],
            nextVerificationId := s.nextVerificationId + 1 }, v.id)

/-- Translation of `SignupInitialSerializer.save` plus the caching done by
`SignupStep1View.post`: invalidate every unused signup verification for the
phone number, create a fresh code, and cache the form under the new
verification id. -/
def signupInitialSave (form : SignupForm) (code : String) (now : Nat)
    (s : SignupState) : SignupState × Nat :=
  let vs := s.verifications.map (fun v =>
    if v.phone_number = form.phone_number ∧ v.verification_type = .signup ∧
        v.is_used = false then
      { v with is_used := true }
    else v)
  let (s2, vid) := createSignupCode form.phone_number code now
    { s with verifications := vs }
  ({ s2 with signupCache := cacheSet vid form s2.signupCache }, vid)

/-- Translation of `ResendSMSView.post`: on a cache hit for the presented
verification id, mark that id's unused verification used, create a fresh
code, and re-cache the form under the new id. -/
def resendPost (vid : Nat) (newCode : String) (now : Nat) (s : SignupState) :
    SignupState × HttpResp :=
  match s.signupCache.find? (fun kv => kv.1 == vid) with
  | none =>
      (s, ⟨400, false, "Session expired. Please start signup process again."⟩)
  | some kv =>
      let vs := s.verifications.map (fun v =>
        if v.id = vid ∧ v.is_used = false then { v with is_used := true } else v)
      let (s2, newId) := createSignupCode kv.2.phone_number newCode now
        { s with verifications := vs }
      let s3 := { s2 with
        signupCache := cacheDelete vid (cacheSet newId kv.2 s2.signupCache) }
      (s3, ⟨200, true, "New verification code sent"⟩)

/-- Translation of `SignupVerifySerializer.validate` together with
`SignupStep2View.post` and `SignupVerifySerializer.create_user`: find an
unused, user-less signup verification matching id and code, check expiry,
read the cached form, check email/phone uniqueness, then create the user and
mark the verification used and bound to it. -/
def verifyPost (vid : Nat) (code : String) (now : Nat) (s : SignupState) :
    SignupState × HttpResp :=
  match s.verifications.find? (fun v =>
      v.id == vid && v.code == code && v.userId == none &&
      v.verification_type == VType.signup && v.is_used == false) with
  | none => (s, ⟨400, false, "Invalid or expired verification code"⟩)
  | some v =>
      if ¬ (now < v.expires_at) then
        (s, ⟨400, false, "Verification code has expired"⟩)
      else
        match s.signupCache.find? (fun kv => kv.1 == vid) with
        | none =>
            (s, ⟨400, false, "Session expired. Please start signup process again."⟩)
        | some kv =>
            if s.users.any (fun u => u.email == kv.2.email) then
              (s, ⟨400, false, "User with this email already exists."⟩)
            else if s.users.any (fun u => u.phone_number == kv.2.phone_number) then
              (s, ⟨400, false, "User with this phone number already exists."⟩)
            else
              let u : AccountUser :=
                { id := s.nextUserId, email := pyLower kv.2.email,
                  phone_number := kv.2.phone_number }
              let vs := s.verifications.map (fun w =>
                if w.id = vid then { w with userId := some u.id, is_used := true }
                else w)
              ({ s with users := s.users ++ [u], verifications := vs,
                        signupCache := cacheDelete vid s.signupCache,
                        nextUserId := s.nextUserId + 1 },
               ⟨201, true, "Account created successfully! You are now logged in."⟩)

/-- Sample validated step-1 payload used in concrete scenarios. -/
def sampleStep1 : Payload :=
  [("first_name", .str "Ali"), ("last_name", .str "Valiyev"),
   ("pinfl", .str "12345678901234"), ("phone_number", .str "+998901234567"),
   ("area", .str "Andijon"), ("district", .str "Asaka"),
   ("neighborhood", .str "Guliston"), ("reward_id", .num 5)]

/-- Sample validated step-2 payload. -/
def sampleStep2 : Payload :=
  [("activity", .str "Sport"), ("activity_description", .str "Yutuqlar")]

/-- Sample step-3 payload: two cached certificates, one of whose temporary
files will turn out to be unreadable. -/
def sampleStep3 : Payload :=
  [("certificates", .fileList
    [⟨"cert1.pdf", "temp_uploads/good.pdf", 100⟩,
     ⟨"cert2.pdf", "temp_uploads/bad.pdf", 200⟩])]

/-- Sample completed wizard bucket. -/
def sampleBucket : Bucket := fun k =>
  if k = "step1_data" then some (.payload sampleStep1)
  else if k = "step2_data" then some (.payload sampleStep2)
  else if k = "step3_data" then some (.payload sampleStep3)
  else none

/-- Sample store with reward 5, user 7 and no applications. -/
def sampleDbEmpty : Db :=
  { rewards := [5], apps := [], certs := [], files := [],
    users := [{ id := 7, first_name := "", last_name := "", pinfl := "",
                phone_number := "" }],
    nextAppId := 1 }

/-- Sample store in which user 7 already holds an application for reward 5. -/
def sampleDbDup : Db :=
  { sampleDbEmpty with
    apps := [{ id := 11, userId := 7, rewardId := 5, status := .yuborilgan,
               area := "Andijon", district := "Asaka", neighborhood := "Guliston",
               activity := "Sport", activity_description := "Yutuqlar",
               recommendation_letter := none, source := "web" }],
    nextAppId := 12 }

/-- Sample temporary-storage readability: every path except the bad one reads. -/
def sampleFileOk : String → Bool := fun p => p != "temp_uploads/bad.pdf"

/-- Sample signup state: verification 1 is fresh and cached, verification 2 is
already used. -/
def sampleSignupState : SignupState :=
  { verifications :=
      [{ id := 1, phone_number := "+998900000001", code := "111111",
         userId := none, verification_type := .signup, expires_at := 300,
         is_used := false },
       { id := 2, phone_number := "+998900000002", code := "222222",
         userId := none, verification_type := .signup, expires_at := 300,
         is_used := true }],
    users := [],
    signupCache :=
      [(1, { first_name := "Ali", last_name := "Valiyev",
             email := "Ali@Example.com", phone_number := "+998900000001",
             password := "secret123" })],
    nextVerificationId := 3, nextUserId := 1 }


/-- Decimal character list of a natural number, most significant digit first.
Reference function used to reason about `Nat.repr`. -/
def natChars (n : Nat) : List Char :=
  if _ : n < 10 then [Nat.digitChar n]
  else
    have : n / 10 < n := Nat.div_lt_self (by omega) (by omega)
    natChars (n / 10) ++ [Nat.digitChar (n % 10)]

theorem natChars_eq_small {n : Nat} (h : n < 10) :
    natChars n = [Nat.digitChar n] := by
  rw [natChars]
  simp [h]

theorem natChars_eq_large {n : Nat} (h : ¬ n < 10) :
    natChars n = natChars (n / 10) ++ [Nat.digitChar (n % 10)] := by
  conv_lhs => rw [natChars]
  simp [h]

theorem toDigitsCore_eq_natChars :
    ∀ (fuel n : Nat) (ds : List Char), n < fuel →
      Nat.toDigitsCore 10 fuel n ds = natChars n ++ ds := by
  intro fuel
  induction fuel with
  | zero => intro n ds h; omega
  | succ f ih =>
    intro n ds h
    by_cases hn : n < 10
    · have hdiv : n / 10 = 0 := Nat.div_eq_of_lt hn
      have hmod : n % 10 = n := Nat.mod_eq_of_lt hn
      simp only [Nat.toDigitsCore, hdiv, hmod, if_pos]
      rw [natChars_eq_small hn]
      rfl
    · have hdiv : ¬ n / 10 = 0 := by omega
      have hlt : n / 10 < f := by
        have h1 : n / 10 < n := Nat.div_lt_self (by omega) (by omega)
        omega
      simp only [Nat.toDigitsCore, hdiv, if_neg, if_false]
      rw [ih (n / 10) (Nat.digitChar (n % 10) :: ds) hlt]
      rw [natChars_eq_large hn, List.append_assoc]
      rfl

theorem natRepr_eq_natChars (n : Nat) : Nat.repr n = (natChars n).asString := by
  rw [Nat.repr, Nat.toDigits,
    toDigitsCore_eq_natChars (n + 1) n [] (Nat.lt_succ_self n), List.append_nil]

theorem digitChar_inj_lt :
    ∀ m < 10, ∀ n < 10, Nat.digitChar m = Nat.digitChar n → m = n := by decide

theorem natChars_ne_nil (n : Nat) : natChars n ≠ [] := by
  by_cases h : n < 10
  · rw [natChars_eq_small h]
    simp
  · rw [natChars_eq_large h]
    simp

theorem natChars_injective : ∀ m n : Nat, natChars m = natChars n → m = n := by
  intro m
  induction m using Nat.strong_induction_on with
  | _ m ih =>
    intro n h
    by_cases hm : m < 10 <;> by_cases hn : n < 10
    · rw [natChars_eq_small hm, natChars_eq_small hn] at h
      exact digitChar_inj_lt m hm n hn (by injection h)
    · rw [natChars_eq_small hm, natChars_eq_large hn] at h
      have h0 := congrArg List.length h
      simp only [List.length_append, List.length_cons, List.length_nil] at h0
      have h1 : (natChars (n / 10)).length = 0 := by omega
      exact absurd (List.length_eq_zero.mp h1) (natChars_ne_nil _)
    · rw [natChars_eq_large hm, natChars_eq_small hn] at h
      have h0 := congrArg List.length h
      simp only [List.length_append, List.length_cons, List.length_nil] at h0
      have h1 : (natChars (m / 10)).length = 0 := by omega
      exact absurd (List.length_eq_zero.mp h1) (natChars_ne_nil _)
    · rw [natChars_eq_large hm, natChars_eq_large hn] at h
      have hparts := List.append_inj' h rfl
      have hdiv : m / 10 = n / 10 :=
        ih (m / 10) (Nat.div_lt_self (by omega) (by omega)) (n / 10) hparts.1
      have hmod : m % 10 = n % 10 := by
        have hd : Nat.digitChar (m % 10) = Nat.digitChar (n % 10) := by
          have h2 := hparts.2
          injection h2
        exact digitChar_inj_lt (m % 10) (Nat.mod_lt m (by omega)) (n % 10)
          (Nat.mod_lt n (by omega)) hd
      omega

theorem natRepr_injective {m n : Nat} (h : Nat.repr m = Nat.repr n) : m = n := by
  rw [natRepr_eq_natChars, natRepr_eq_natChars] at h
  exact natChars_injective m n (List.asString_inj.mp h)

theorem bset_self (k : String) (e : CacheEntry) (b : Bucket) :
    bset k e b k = some e := by
  simp [bset]

theorem bset_ne {k2 k : String} (h : k2 ≠ k) (e : CacheEntry) (b : Bucket) :
    bset k e b k2 = b k2 := by
  simp [bset, h]

theorem dataStepKey_data (m : Nat) :
    (dataStepKey m).data =
      's' :: 't' :: 'e' :: 'p' :: ((Nat.repr m).data ++ ("_data" : String).data) := by
  rw [dataStepKey, String.data_append, String.data_append, List.append_assoc]
  rfl

theorem dataStepKey_injective {m n : Nat} (h : dataStepKey m = dataStepKey n) :
    m = n := by
  have h2 := congrArg String.data h
  rw [dataStepKey_data, dataStepKey_data] at h2
  simp only [List.cons.injEq, true_and] at h2
  have h3 := List.append_inj_left' h2 rfl
  exact natRepr_injective (String.ext h3)

theorem dataStepKey_ne_currentStep (m : Nat) : dataStepKey m ≠ "current_step" := by
  intro h
  have h2 := congrArg String.data h
  rw [dataStepKey_data,
    show ("current_step" : String).data =
      'c' :: 'u' :: 'r' :: 'r' :: 'e' :: 'n' :: 't' :: '_' :: 's' :: 't' :: 'e' :: 'p' :: []
    from rfl] at h2
  injection h2 with h3 _
  exact absurd h3 (by decide)

theorem dataStepKey_ne_rewardId (m : Nat) : dataStepKey m ≠ "reward_id" := by
  intro h
  have h2 := congrArg String.data h
  rw [dataStepKey_data,
    show ("reward_id" : String).data =
      'r' :: 'e' :: 'w' :: 'a' :: 'r' :: 'd' :: '_' :: 'i' :: 'd' :: []
    from rfl] at h2
  injection h2 with h3 _
  exact absurd h3 (by decide)

theorem pairDraftKey_inj_right {u r1 r2 : Nat}
    (h : pairDraftKey u r1 = pairDraftKey u r2) : r1 = r2 := by
  have h2 := congrArg String.data h
  simp only [pairDraftKey, String.data_append] at h2
  exact natRepr_injective (String.ext (List.append_cancel_left h2))

/-- C4: refutation of the intended 5-minute window as implemented.  A reset
code created exactly 86400 seconds (one whole day) before the check — far
more than 5 minutes old — is reported valid by `PasswordResetCode.is_valid`,
because Python's `timedelta.seconds` wraps at whole days; within the first
day the check does behave as a strict 300-second window. -/
theorem passwordResetIsValid_wraps_after_one_day :
    PasswordResetCode.is_valid ⟨"+998901234567", "1234", 0⟩ 86400 = true ∧
    ¬ (86400 - 0 < 300) ∧
    (∀ e : Fin 86400,
      (PasswordResetCode.is_valid ⟨"+998901234567", "1234", 0⟩ e.val = true ↔
        e.val < 300)) := by
  refine ⟨by decide, by decide, ?_⟩
  intro e
  simp only [PasswordResetCode.is_valid, Nat.sub_zero, Nat.mod_eq_of_lt e.isLt,
    decide_eq_true_eq]

/-- C6: a notification's read timestamp, once set, is never cleared or
overwritten: `mark_as_read` on an already-read row is the identity, the
mark-all update function leaves read rows untouched (it only selects rows
with null `read_at`), and detail retrieval neither re-marks nor reports a
read row as newly marked. -/
theorem notification_readAt_never_cleared (n : NotificationRow)
    (now t uid : Nat) (ids : List Nat) (h : n.read_at = some t) :
    mark_as_read now n = n ∧
    markAllAsReadOne now uid ids n = n ∧
    markAllAsReadPost now uid ids [n] = [n] ∧
    notificationDetailRetrieve now n = (n, false) := by
  refine ⟨?_, ?_, ?_, ?_⟩
  · simp [mark_as_read, h]
  · simp [markAllAsReadOne, h]
  · simp [markAllAsReadPost, markAllAsReadOne, h]
  · simp [notificationDetailRetrieve, h]

/-- Witness: a concrete already-read notification is left untouched by every
read-marking operation. -/
theorem notification_readAt_never_cleared_witness :
    mark_as_read 50 ⟨1, 2, .application_updated, "Ariza holati yangilandi", some 5⟩ =
      ⟨1, 2, .application_updated, "Ariza holati yangilandi", some 5⟩ ∧
    markAllAsReadOne 50 2 [] ⟨1, 2, .application_updated, "Ariza holati yangilandi", some 5⟩ =
      ⟨1, 2, .application_updated, "Ariza holati yangilandi", some 5⟩ ∧
    markAllAsReadPost 50 2 [] [⟨1, 2, .application_updated, "Ariza holati yangilandi", some 5⟩] =
      [⟨1, 2, .application_updated, "Ariza holati yangilandi", some 5⟩] ∧
    notificationDetailRetrieve 50 ⟨1, 2, .application_updated, "Ariza holati yangilandi", some 5⟩ =
      (⟨1, 2, .application_updated, "Ariza holati yangilandi", some 5⟩, false) :=
  notification_readAt_never_cleared _ 50 5 2 [] rfl

/-- C3 counterexample: a save of a loaded Application whose status changed
from `mahalla` back to `yuborilgan` is a genuine status change, yet
`Application.save` creates no notification at all —
`_handle_status_change_notification` has no branch for `yuborilgan` — which
refutes "exactly one notification ... for every pair of old and new status
values, including a change whose new status is 'yuborilgan'". -/
theorem appSave_to_yuborilgan_creates_nothing :
    (some AppStatus.mahalla ≠ some AppStatus.yuborilgan) ∧
    (appSave 1000 99 ⟨some 1, false, .yuborilgan, some .mahalla, 3, "Mukofot",
        "Tavsif", "Andijon viloyati", "Asaka", "Sport"⟩).2 = [] := by
  exact ⟨by decide, rfl⟩

/-- C3 (amended): for a save of a loaded Application (primary key present,
not `_state.adding`), an unchanged status creates no notification; a status
change creates exactly one notification when the new status is any of the six
handled statuses, but none when the new status is `yuborilgan`; and a second
save with no intervening modification creates nothing, because
`_original_status` is re-tracked after each save. -/
theorem appSave_notifies_once_per_transition (a : AppInstance)
    (now now2 newPk newPk2 : Nat) (old : AppStatus)
    (hadd : a.stateAdding = false) (hpk : a.pk.isSome)
    (horig : a.origStatus = some old) :
    (old = a.status → (appSave now newPk a).2 = []) ∧
    (old ≠ a.status → a.status ≠ .yuborilgan → (appSave now newPk a).2.length = 1) ∧
    (old ≠ a.status → a.status = .yuborilgan → (appSave now newPk a).2 = []) ∧
    (appSave now2 newPk2 (appSave now newPk a).1).2 = [] := by
  refine ⟨?_, ?_, ?_, ?_⟩
  · intro heq
    simp [appSave, hadd, horig, heq]
  · intro hne hnotY
    cases hs : a.status <;>
      simp_all [appSave, handleStatusChangeNotification, hadd, horig]
  · intro hne hY
    simp [appSave, hadd, horig, hne, hY, handleStatusChangeNotification]
  · simp [appSave, hadd, horig]

/-- Witness: concrete loaded application, old status `yuborilgan`; the three
amended behaviours evaluated at `tuman` as the new status. -/
theorem appSave_notifies_once_per_transition_witness :
    ((AppStatus.yuborilgan : AppStatus) =
        (AppInstance.status ⟨some 4, false, .tuman, some .yuborilgan, 3, "M",
          "T", "A", "D", "S"⟩) →
      (appSave 10 99 ⟨some 4, false, .tuman, some .yuborilgan, 3, "M", "T",
        "A", "D", "S"⟩).2 = []) ∧
    (AppStatus.yuborilgan ≠
        (AppInstance.status ⟨some 4, false, .tuman, some .yuborilgan, 3, "M",
          "T", "A", "D", "S"⟩) →
      (AppInstance.status ⟨some 4, false, .tuman, some .yuborilgan, 3, "M",
          "T", "A", "D", "S"⟩) ≠ .yuborilgan →
      (appSave 10 99 ⟨some 4, false, .tuman, some .yuborilgan, 3, "M", "T",
        "A", "D", "S"⟩).2.length = 1) ∧
    ((AppStatus.yuborilgan : AppStatus) ≠
        (AppInstance.status ⟨some 4, false, .tuman, some .yuborilgan, 3, "M",
          "T", "A", "D", "S"⟩) →
      (AppInstance.status ⟨some 4, false, .tuman, some .yuborilgan, 3, "M",
          "T", "A", "D", "S"⟩) = .yuborilgan →
      (appSave 10 99 ⟨some 4, false, .tuman, some .yuborilgan, 3, "M", "T",
        "A", "D", "S"⟩).2 = []) ∧
    (appSave 20 100 (appSave 10 99 ⟨some 4, false, .tuman, some .yuborilgan,
      3, "M", "T", "A", "D", "S"⟩).1).2 = [] :=
  appSave_notifies_once_per_transition _ 10 20 99 100 .yuborilgan rfl rfl rfl

/-- C9: the mapping from a changed status to the notification variant is the
fixed table of `_handle_status_change_notification`: every transition into
`mahalla`, `tuman` or `hudud` produces the single grouped in-process variant
`application_updated`; a transition into `mukofotlangan` produces
`reward_won`; a transition into `rad_etilgan` produces
`application_rejected` — for every application and every distinct prior
status. -/
theorem appSave_variant_table (a : AppInstance) (now newPk : Nat)
    (old : AppStatus) (hadd : a.stateAdding = false) (hpk : a.pk.isSome)
    (horig : a.origStatus = some old) (hch : old ≠ a.status) :
    ((a.status = .mahalla ∨ a.status = .tuman ∨ a.status = .hudud) →
      (appSave now newPk a).2.map (fun nd => nd.notification_type) =
        [NotifType.application_updated]) ∧
    (a.status = .mukofotlangan →
      (appSave now newPk a).2.map (fun nd => nd.notification_type) =
        [NotifType.reward_won]) ∧
    (a.status = .rad_etilgan →
      (appSave now newPk a).2.map (fun nd => nd.notification_type) =
        [NotifType.application_rejected]) := by
  refine ⟨?_, ?_, ?_⟩
  · rintro (hs | hs | hs) <;> rw [hs] at hch <;>
      simp [appSave, hadd, horig, hpk, hch, hs, handleStatusChangeNotification,
        createApplicationInProcessNotification, create_notification]
  · intro hs
    rw [hs] at hch
    simp [appSave, hadd, horig, hpk, hch, hs, handleStatusChangeNotification,
      createApplicationWonNotification, create_notification]
  · intro hs
    rw [hs] at hch
    simp [appSave, hadd, horig, hpk, hch, hs, handleStatusChangeNotification,
      createApplicationRejectedNotification, create_notification]

/-- Witness: a concrete transition from `yuborilgan` into `mahalla` yields
exactly the grouped in-process variant. -/
theorem appSave_variant_table_witness :
    (((AppInstance.status ⟨some 4, false, .mahalla, some .yuborilgan, 3, "M",
        "T", "A", "D", "S"⟩) = .mahalla ∨
      (AppInstance.status ⟨some 4, false, .mahalla, some .yuborilgan, 3, "M",
        "T", "A", "D", "S"⟩) = .tuman ∨
      (AppInstance.status ⟨some 4, false, .mahalla, some .yuborilgan, 3, "M",
        "T", "A", "D", "S"⟩) = .hudud) →
      (appSave 10 99 ⟨some 4, false, .mahalla, some .yuborilgan, 3, "M", "T",
        "A", "D", "S"⟩).2.map (fun nd => nd.notification_type) =
        [NotifType.application_updated]) ∧
    ((AppInstance.status ⟨some 4, false, .mahalla, some .yuborilgan, 3, "M",
        "T", "A", "D", "S"⟩) = .mukofotlangan →
      (appSave 10 99 ⟨some 4, false, .mahalla, some .yuborilgan, 3, "M", "T",
        "A", "D", "S"⟩).2.map (fun nd => nd.notification_type) =
        [NotifType.reward_won]) ∧
    ((AppInstance.status ⟨some 4, false, .mahalla, some .yuborilgan, 3, "M",
        "T", "A", "D", "S"⟩) = .rad_etilgan →
      (appSave 10 99 ⟨some 4, false, .mahalla, some .yuborilgan, 3, "M", "T",
        "A", "D", "S"⟩).2.map (fun nd => nd.notification_type) =
        [NotifType.application_rejected]) :=
  appSave_variant_table _ 10 99 .yuborilgan rfl rfl rfl (by decide)

/-- C10: saving one wizard step's payload leaves every other bucket entry
unchanged: for `save_session_data(data, step=n)` the step-`n` entry and
`current_step` are written, `reward_id` is written only when the payload
contains one, every other step's entry keeps its previous value, and every
key other than those three is untouched. -/
theorem saveSessionData_frame (b : Bucket) (data : Payload) (n : Nat)
    (hn : n ≠ 0) :
    ((saveSessionData b data (some n)).1 (dataStepKey n) = some (.payload data)) ∧
    ((saveSessionData b data (some n)).1 "current_step" = some (.val (.num n))) ∧
    (∀ m, m ≠ n →
      (saveSessionData b data (some n)).1 (dataStepKey m) = b (dataStepKey m)) ∧
    (lookupKey data "reward_id" = none →
      (saveSessionData b data (some n)).1 "reward_id" = b "reward_id") ∧
    (∀ k, k ≠ dataStepKey n → k ≠ "current_step" → k ≠ "reward_id" →
      (saveSessionData b data (some n)).1 k = b k) := by
  have hcr : ("current_step" : String) ≠ "reward_id" := by decide
  cases hrw : lookupKey data "reward_id" with
  | none =>
    refine ⟨?_, ?_, ?_, ?_, ?_⟩
    · simp only [saveSessionData, hrw, hn, if_true, ne_eq, not_false_eq_true,
        if_pos]
      rw [bset_ne (dataStepKey_ne_currentStep n), bset_self]
    · simp only [saveSessionData, hrw, hn, ne_eq, not_false_eq_true, if_pos]
      rw [bset_self]
    · intro m hm
      simp only [saveSessionData, hrw, hn, ne_eq, not_false_eq_true, if_pos]
      rw [bset_ne (dataStepKey_ne_currentStep m),
        bset_ne (fun h => hm (dataStepKey_injective h))]
    · intro _
      simp only [saveSessionData, hrw, hn, ne_eq, not_false_eq_true, if_pos]
      rw [bset_ne (Ne.symm hcr), bset_ne (Ne.symm (dataStepKey_ne_rewardId n))]
    · intro k hk1 hk2 hk3
      simp only [saveSessionData, hrw, hn, ne_eq, not_false_eq_true, if_pos]
      rw [bset_ne hk2, bset_ne hk1]
  | some v =>
    refine ⟨?_, ?_, ?_, ?_, ?_⟩
    · simp only [saveSessionData, hrw, hn, ne_eq, not_false_eq_true, if_pos]
      rw [bset_ne (dataStepKey_ne_rewardId n),
        bset_ne (dataStepKey_ne_currentStep n), bset_self]
    · simp only [saveSessionData, hrw, hn, ne_eq, not_false_eq_true, if_pos]
      rw [bset_ne hcr, bset_self]
    · intro m hm
      simp only [saveSessionData, hrw, hn, ne_eq, not_false_eq_true, if_pos]
      rw [bset_ne (dataStepKey_ne_rewardId m),
        bset_ne (dataStepKey_ne_currentStep m),
        bset_ne (fun h => hm (dataStepKey_injective h))]
    · intro habs
      exact Option.noConfusion habs
    · intro k hk1 hk2 hk3
      simp only [saveSessionData, hrw, hn, ne_eq, not_false_eq_true, if_pos]
      rw [bset_ne hk3, bset_ne hk2, bset_ne hk1]

/-- Witness: saving a concrete step-2 payload into a bucket holding step-1
data writes `step2_data` and `current_step` and leaves the other entries
alone. -/
theorem saveSessionData_frame_witness :
    ((saveSessionData sampleBucket sampleStep2 (some 2)).1 (dataStepKey 2) =
      some (.payload sampleStep2)) ∧
    ((saveSessionData sampleBucket sampleStep2 (some 2)).1 "current_step" =
      some (.val (.num 2))) ∧
    (∀ m, m ≠ 2 →
      (saveSessionData sampleBucket sampleStep2 (some 2)).1 (dataStepKey m) =
        sampleBucket (dataStepKey m)) ∧
    (lookupKey sampleStep2 "reward_id" = none →
      (saveSessionData sampleBucket sampleStep2 (some 2)).1 "reward_id" =
        sampleBucket "reward_id") ∧
    (∀ k, k ≠ dataStepKey 2 → k ≠ "current_step" → k ≠ "reward_id" →
      (saveSessionData sampleBucket sampleStep2 (some 2)).1 k =
        sampleBucket k) :=
  saveSessionData_frame sampleBucket sampleStep2 2 (by decide)

/-- C8 counterexample: when no reward id is resolvable from the request data,
the query parameters or the session, `get_session_key` returns the per-user
fallback key, which is not of the form `application_draft_{user}_{reward}`
for any reward — so the key of such a step submission is not determined by a
(user, reward) pair. -/
theorem getSessionKey_fallback_not_pair :
    ¬ ∃ r : Nat, getSessionKey 7 none none none = pairDraftKey 7 r := by
  rintro ⟨r, h⟩
  have hk : getSessionKey 7 none none none =
      "application_draft_" ++ Nat.repr 7 := rfl
  rw [hk, pairDraftKey] at h
  have h2 := congrArg String.length h
  simp only [String.length_append] at h2
  rw [show ("_" : String).length = 1 from rfl] at h2
  omega

/-- C8 (amended): a step submission's cache key encodes the (user, reward)
pair only when a truthy reward id is resolvable — the first truthy source
among request data, query parameters and session wins, giving
`application_draft_{user}_{reward}`, and distinct positive reward ids give
distinct keys for the same user; with no truthy source the key falls back to
`application_draft_{user}`, which does not depend on any reward, so drafts
for different rewards can share one bucket. -/
theorem getSessionKey_shapes (u r1 r2 : Nat) (g s : Option Val) (v : Val)
    (hv : valTruthy v = true) (h1 : r1 ≠ 0) (h2 : r2 ≠ 0) (hne : r1 ≠ r2) :
    (getSessionKey u (some v) g s =
      "application_draft_" ++ Nat.repr u ++ "_" ++ pyStr v) ∧
    (getSessionKey u (some (.num r1)) none none ≠
      getSessionKey u (some (.num r2)) none none) ∧
    (getSessionKey u none none none = "application_draft_" ++ Nat.repr u) := by
  refine ⟨?_, ?_, rfl⟩
  · simp [getSessionKey, hv]
  · have e1 : getSessionKey u (some (.num r1)) none none = pairDraftKey u r1 := by
      simp [getSessionKey, valTruthy, h1, pairDraftKey, pyStr]
    have e2 : getSessionKey u (some (.num r2)) none none = pairDraftKey u r2 := by
      simp [getSessionKey, valTruthy, h2, pairDraftKey, pyStr]
    rw [e1, e2]
    intro h
    exact hne (pairDraftKey_inj_right h)

/-- Witness: user 7, rewards 1 and 2; the data-source key shape, the
distinctness of the two pair keys, and the fallback shape. -/
theorem getSessionKey_shapes_witness :
    (getSessionKey 7 (some (.num 1)) none none =
      "application_draft_" ++ Nat.repr 7 ++ "_" ++ pyStr (.num 1)) ∧
    (getSessionKey 7 (some (.num 1)) none none ≠
      getSessionKey 7 (some (.num 2)) none none) ∧
    (getSessionKey 7 none none none = "application_draft_" ++ Nat.repr 7) :=
  getSessionKey_shapes 7 1 2 none none (.num 1) (by decide) (by decide)
    (by decide) (by decide)

/-- C7: a wizard step can be submitted only when its predecessors' data is
cached: a step-2 POST without `step1_data` and a step-3 POST without
`step1_data` or `step2_data` each return 400 and leave the bucket and
session unchanged, and the final submission returns 400 with the store, the
bucket and the session untouched unless all three step entries are present. -/
theorem wizard_step_prerequisites (b2 b3 bf : Bucket) (sess : Option Val)
    (data : Payload) (recFile : Option UploadedFile) (recPath : String)
    (certFiles : List UploadedFile) (certPaths : List String) (db : Db)
    (uid : Nat) (fileOk : String → Bool)
    (hb2 : b2 "step1_data" = none)
    (hb3 : b3 "step1_data" = none ∨ b3 "step2_data" = none)
    (hbf : ¬ ∀ k ∈ requiredSteps, (bf k).isSome) :
    step2Post b2 sess data =
      ⟨b2, sess, ⟨400, false, "Avval 1-qadamni yakunlang"⟩⟩ ∧
    step3Post b3 sess recFile recPath certFiles certPaths =
      ⟨b3, sess, ⟨400, false, "Avval oldingi qadamlarni yakunlang"⟩⟩ ∧
    ((finalPost db uid bf sess fileOk).resp.status = 400 ∧
     (finalPost db uid bf sess fileOk).db = db ∧
     (finalPost db uid bf sess fileOk).bucket = some bf ∧
     (finalPost db uid bf sess fileOk).sessionRewardId = sess) := by
  refine ⟨?_, ?_, ?_⟩
  · simp [step2Post, hb2]
  · simp only [step3Post]
    rw [if_pos hb3]
  · cases hfind : requiredSteps.find? (fun k => (bf k).isNone) with
    | none =>
      exfalso
      apply hbf
      intro k hk
      have h := List.find?_eq_none.mp hfind k hk
      cases hbk : bf k with
      | none => exact absurd (by simp [hbk]) h
      | some e => simp
    | some k =>
      refine ⟨?_, ?_, ?_, ?_⟩ <;> simp [finalPost, hfind]

/-- Witness: against an empty wizard bucket every guarded POST rejects with
400 and changes nothing. -/
theorem wizard_step_prerequisites_witness :
    step2Post emptyBucket none sampleStep2 =
      ⟨emptyBucket, none, ⟨400, false, "Avval 1-qadamni yakunlang"⟩⟩ ∧
    step3Post emptyBucket none none "temp_uploads/r.pdf" [] [] =
      ⟨emptyBucket, none, ⟨400, false, "Avval oldingi qadamlarni yakunlang"⟩⟩ ∧
    ((finalPost sampleDbEmpty 7 emptyBucket none sampleFileOk).resp.status = 400 ∧
     (finalPost sampleDbEmpty 7 emptyBucket none sampleFileOk).db = sampleDbEmpty ∧
     (finalPost sampleDbEmpty 7 emptyBucket none sampleFileOk).bucket =
       some emptyBucket ∧
     (finalPost sampleDbEmpty 7 emptyBucket none sampleFileOk).sessionRewardId =
       none) :=
  wizard_step_prerequisites emptyBucket emptyBucket emptyBucket none
    sampleStep2 none "temp_uploads/r.pdf" [] [] sampleDbEmpty 7 sampleFileOk
    rfl (Or.inl rfl) (by decide)

/-- Case analysis of `verifyPost`: every failure path leaves the state
unchanged with a non-201 status, and the success path answers 201 and maps
the verification table, burning the matched id. -/
theorem verifyPost_spec (vid : Nat) (code : String) (now : Nat)
    (s : SignupState) :
    ((verifyPost vid code now s).1 = s ∧
      (verifyPost vid code now s).2.status ≠ 201) ∨
    ((verifyPost vid code now s).2.status = 201 ∧
      (verifyPost vid code now s).1.verifications =
        s.verifications.map (fun w =>
          if w.id = vid then
            { w with userId := some s.nextUserId, is_used := true }
          else w)) := by
  unfold verifyPost
  split
  · exact Or.inl ⟨rfl, by simp⟩
  · split
    · exact Or.inl ⟨rfl, by simp⟩
    · split
      · exact Or.inl ⟨rfl, by simp⟩
      · split
        · exact Or.inl ⟨rfl, by simp⟩
        · split
          · exact Or.inl ⟨rfl, by simp⟩
          · exact Or.inr ⟨rfl, rfl⟩

/-- C5: a phone verification code is usable at most once: a successful
phase-2 signup leaves every verification row with the presented id marked
used; a resend (which requires its cache entry) turns every previously
stored row with the presented id into a used row; and a phase-2 attempt
presenting an id all of whose rows are already used is rejected with 400 and
changes nothing — in particular no user is created. -/
theorem phoneVerification_single_use (s : SignupState) (vid vid2 : Nat)
    (code code2 newCode : String) (now : Nat)
    (hcache : (s.signupCache.find? (fun kv => kv.1 == vid)).isSome)
    (hused : ∀ v ∈ s.verifications, v.id = vid2 → v.is_used = true) :
    ((verifyPost vid code now s).2.status = 201 →
      ∀ v ∈ (verifyPost vid code now s).1.verifications,
        v.id = vid → v.is_used = true) ∧
    (∀ v ∈ s.verifications, v.id = vid →
      { v with is_used := true } ∈ (resendPost vid newCode now s).1.verifications) ∧
    ((verifyPost vid2 code2 now s).1 = s ∧
      (verifyPost vid2 code2 now s).2.status = 400) := by
  refine ⟨?_, ?_, ?_⟩
  · intro h201 v hv hvid
    rcases verifyPost_spec vid code now s with ⟨_, hne⟩ | ⟨_, hmap⟩
    · exact absurd h201 hne
    · rw [hmap] at hv
      simp only [List.mem_map] at hv
      obtain ⟨w2, hw2mem, hw2⟩ := hv
      by_cases hid : w2.id = vid
      · rw [← hw2]
        simp [hid]
      · rw [← hw2] at hvid
        rw [if_neg hid] at hvid
        exact absurd hvid hid
  · intro v hv hvid
    unfold resendPost
    cases hc : s.signupCache.find? (fun kv => kv.1 == vid) with
    | none =>
      rw [hc] at hcache
      exact absurd hcache (by decide)
    | some kv =>
      simp only [createSignupCode]
      apply List.mem_append_left
      have hfv : (if v.id = vid ∧ v.is_used = false then
            ({ v with is_used := true } : Verification) else v) =
          { v with is_used := true } := by
        by_cases hu : v.is_used = true
        · rw [if_neg (by simp [hu])]
          cases v
          simp_all
        · have hu2 : v.is_used = false := by
            cases hval : v.is_used
            · rfl
            · exact absurd hval hu
          rw [if_pos ⟨hvid, hu2⟩]
      rw [← hfv]
      exact List.mem_map_of_mem _ hv
  · have hfind : s.verifications.find? (fun v =>
        v.id == vid2 && v.code == code2 && v.userId == none &&
        v.verification_type == VType.signup && v.is_used == false) = none := by
      apply List.find?_eq_none.mpr
      intro v hv
      by_cases hid : v.id = vid2
      · have hu := hused v hv hid
        simp [hu]
      · simp [hid]
    constructor
    · unfold verifyPost
      rw [hfind]
    · unfold verifyPost
      rw [hfind]

/-- Witness: in the sample signup state, phase 2 on verification 1 succeeds
and burns it, resend on verification 1 burns it, and phase 2 on the
already-used verification 2 rejects without any state change. -/
theorem phoneVerification_single_use_witness :
    ((verifyPost 1 "111111" 0 sampleSignupState).2.status = 201 →
      ∀ v ∈ (verifyPost 1 "111111" 0 sampleSignupState).1.verifications,
        v.id = 1 → v.is_used = true) ∧
    (∀ v ∈ sampleSignupState.verifications, v.id = 1 →
      { v with is_used := true } ∈
        (resendPost 1 "999999" 0 sampleSignupState).1.verifications) ∧
    ((verifyPost 2 "222222" 0 sampleSignupState).1 = sampleSignupState ∧
      (verifyPost 2 "222222" 0 sampleSignupState).2.status = 400) :=
  phoneVerification_single_use sampleSignupState 1 2 "111111" "222222"
    "999999" 0 (by decide) (by decide)

/-- Completed steps make the missing-step scan come up empty. -/
theorem stepsFindNone (b : Bucket) (hsteps : ∀ k ∈ requiredSteps, (b k).isSome) :
    requiredSteps.find? (fun k => (b k).isNone) = none := by
  apply List.find?_eq_none.mpr
  intro k hk
  have h := hsteps k hk
  cases hbk : b k with
  | none => rw [hbk] at h; exact absurd h (by decide)
  | some e => simp [hbk]

/-- A validated `final_data` carries a numeric reward id of an existing
reward. -/
theorem finalValidate_rewardId {db : Db} {fd : Payload}
    (hval : finalValidate db fd = true) :
    ∃ r, getVal fd "reward_id" = .num r ∧ db.rewards.contains r = true := by
  unfold finalValidate at hval
  simp only [Bool.and_eq_true] at hval
  cases hv : getVal fd "reward_id" with
  | num r =>
    refine ⟨r, rfl, ?_⟩
    have h := hval.2
    rw [hv] at h
    exact h
  | vnone => rw [hv] at hval; exact absurd hval.2 (by simp)
  | str s => rw [hv] at hval; exact absurd hval.2 (by simp)
  | fileMeta m => rw [hv] at hval; exact absurd hval.2 (by simp)
  | fileList l => rw [hv] at hval; exact absurd hval.2 (by simp)

/-- Applications list written by `ApplicationFinalSerializer.create`: the new
row is appended. -/
theorem serializerCreate_apps (db : Db) (uid : Nat) (fd : Payload)
    (fileOk : String → Bool) :
    (serializerCreate db uid fd fileOk).1.apps =
      db.apps ++ [(serializerCreate db uid fd fileOk).2] := rfl

/-- Identity fields of the row created by `ApplicationFinalSerializer.create`. -/
theorem serializerCreate_app_fields (db : Db) (uid : Nat) (fd : Payload)
    (fileOk : String → Bool) :
    (serializerCreate db uid fd fileOk).2.userId = uid ∧
    (serializerCreate db uid fd fileOk).2.id = db.nextAppId ∧
    (serializerCreate db uid fd fileOk).2.rewardId =
      (match getVal fd "reward_id" with | .num r => r | _ => 0) :=
  ⟨rfl, rfl, rfl⟩

/-- Certificate rows written by `ApplicationFinalSerializer.create`: one per
metadata entry whose temporary file read succeeds. -/
theorem serializerCreate_certs (db : Db) (uid : Nat) (fd : Payload)
    (fileOk : String → Bool) :
    (serializerCreate db uid fd fileOk).1.certs =
      db.certs ++ (match getVal fd "certificates" with
        | Val.fileList l => l
        | _ => []).filterMap (fun (m : FileMeta) =>
          if m.file_path ≠ "" ∧ fileOk m.file_path then
            some { applicationId := db.nextAppId, file := m.original_name }
          else none) := rfl

/-- The `certificates` value of the assembled `final_data` is the cached
step-3 certificate list. -/
theorem buildFinalData_certificates (b : Bucket) :
    (match getVal (buildFinalData b) "certificates" with
     | Val.fileList l => l
     | _ => []) = certsOf (payloadOf (b "step3_data")) := by
  have h : getVal (buildFinalData b) "certificates" =
      (lookupKey (payloadOf (b "step3_data")) "certificates").getD (.fileList []) := rfl
  rw [h, certsOf]
  cases lookupKey (payloadOf (b "step3_data")) "certificates" with
  | none => rfl
  | some v => cases v <;> rfl

/-- The `reward_id` value of the assembled `final_data` is the cached step-1
reward id. -/
theorem buildFinalData_rewardId (b : Bucket) :
    getVal (buildFinalData b) "reward_id" =
      getVal (payloadOf (b "step1_data")) "reward_id" := rfl

/-- Reduction of the final POST on its success path. -/
theorem finalPost_success_eq (db : Db) (uid : Nat) (b : Bucket)
    (sess : Option Val) (fileOk : String → Bool)
    (hsteps : ∀ k ∈ requiredSteps, (b k).isSome)
    (hdup : db.apps.find? (fun a => a.userId == uid &&
      rewardMatches (getVal (payloadOf (b "step1_data")) "reward_id") a) = none)
    (hval : finalValidate db (buildFinalData b) = true) :
    finalPost db uid b sess fileOk =
      ⟨(serializerCreate db uid (buildFinalData b) fileOk).1, none, none,
       ⟨201, true, "Ariza muvaffaqiyatli yuborildi"⟩⟩ := by
  unfold finalPost
  simp only [stepsFindNone b hsteps, hdup, hval, if_true]

/-- C1: at most one Application per (user, reward): when the three wizard
steps are cached, the cached step-1 reward id is `r`, and the store already
holds this user's Application for reward `r`, the final POST answers 400
with the duplicate message and leaves the whole store — Application,
Certificate and File rows included — and the cache bucket and session
untouched; and on arbitrary inputs the operation preserves the invariant
that no (user, reward) pair holds more than one Application row. -/
theorem finalPost_duplicate_guard (db : Db) (uid : Nat) (b : Bucket)
    (sess : Option Val) (fileOk : String → Bool) (r : Nat)
    (hsteps : ∀ k ∈ requiredSteps, (b k).isSome)
    (hr : getVal (payloadOf (b "step1_data")) "reward_id" = .num r)
    (hex : ∃ a ∈ db.apps, a.userId = uid ∧ a.rewardId = r) :
    ((finalPost db uid b sess fileOk).resp =
      ⟨400, false, "Siz ushbu mukofot uchun allaqachon ariza topshirgansiz"⟩) ∧
    ((finalPost db uid b sess fileOk).db = db) ∧
    ((finalPost db uid b sess fileOk).bucket = some b) ∧
    ((finalPost db uid b sess fileOk).sessionRewardId = sess) ∧
    (∀ (db2 : Db) (uid2 : Nat) (b2 : Bucket) (sess2 : Option Val)
        (fk2 : String → Bool) (u2 r2 : Nat),
      pairCount db2.apps u2 r2 ≤ 1 →
      pairCount (finalPost db2 uid2 b2 sess2 fk2).db.apps u2 r2 ≤ 1) := by
  have hnone := stepsFindNone b hsteps
  have hsome : (db.apps.find? (fun a => a.userId == uid &&
      rewardMatches (getVal (payloadOf (b "step1_data")) "reward_id") a)).isSome := by
    simp only [hr]
    apply List.find?_isSome.mpr
    obtain ⟨a, ha, hau, har⟩ := hex
    exact ⟨a, ha, by simp [rewardMatches, hau, har]⟩
  cases hdup : db.apps.find? (fun a => a.userId == uid &&
      rewardMatches (getVal (payloadOf (b "step1_data")) "reward_id") a) with
  | none => rw [hdup] at hsome; exact absurd hsome (by decide)
  | some a0 =>
    have heq : finalPost db uid b sess fileOk =
        ⟨db, some b, sess,
         ⟨400, false, "Siz ushbu mukofot uchun allaqachon ariza topshirgansiz"⟩⟩ := by
      unfold finalPost
      simp only [hnone, hdup]
    refine ⟨by rw [heq], by rw [heq], by rw [heq], by rw [heq], ?_⟩
    intro db2 uid2 b2 sess2 fk2 u2 r2 hle
    cases hfind2 : requiredSteps.find? (fun k => (b2 k).isNone) with
    | some k =>
      have hdb : (finalPost db2 uid2 b2 sess2 fk2).db = db2 := by
        unfold finalPost
        simp only [hfind2]
      rw [hdb]
      exact hle
    | none =>
      cases hdup2 : db2.apps.find? (fun a => a.userId == uid2 &&
          rewardMatches (getVal (payloadOf (b2 "step1_data")) "reward_id") a) with
      | some a1 =>
        have hdb : (finalPost db2 uid2 b2 sess2 fk2).db = db2 := by
          unfold finalPost
          simp only [hfind2, hdup2]
        rw [hdb]
        exact hle
      | none =>
        by_cases hval2 : finalValidate db2 (buildFinalData b2) = true
        · have hsteps2 : ∀ k ∈ requiredSteps, (b2 k).isSome := by
            intro k hk
            have h := List.find?_eq_none.mp hfind2 k hk
            cases hbk : b2 k with
            | none => rw [hbk] at h; exact absurd rfl h
            | some e => simp [hbk]
          rw [finalPost_success_eq db2 uid2 b2 sess2 fk2 hsteps2 hdup2 hval2]
          rw [serializerCreate_apps]
          obtain ⟨r3, hr3, _⟩ := finalValidate_rewardId hval2
          have happ := serializerCreate_app_fields db2 uid2 (buildFinalData b2) fk2
          have hrid : (serializerCreate db2 uid2 (buildFinalData b2) fk2).2.rewardId = r3 := by
            rw [happ.2.2, hr3]
          unfold pairCount at hle ⊢
          rw [List.filter_append, List.length_append]
          by_cases hm : ((serializerCreate db2 uid2 (buildFinalData b2) fk2).2.userId == u2 &&
              (serializerCreate db2 uid2 (buildFinalData b2) fk2).2.rewardId == r2) = true
          · simp only [Bool.and_eq_true, beq_iff_eq] at hm
            rw [happ.1] at hm
            rw [hrid] at hm
            have hnil : db2.apps.filter (fun a => a.userId == u2 && a.rewardId == r2) = [] := by
              apply List.filter_eq_nil_iff.mpr
              intro a ha hpa
              apply List.find?_eq_none.mp hdup2 a ha
              simp only [Bool.and_eq_true, beq_iff_eq] at hpa
              simp only [Bool.and_eq_true, beq_iff_eq]
              constructor
              · rw [hpa.1, ← hm.1]
              · rw [← buildFinalData_rewardId b2, hr3]
                simp only [rewardMatches, beq_iff_eq]
                rw [hpa.2, ← hm.2]
            rw [hnil]
            have hfl := List.length_filter_le
              (fun a => a.userId == u2 && a.rewardId == r2)
              [(serializerCreate db2 uid2 (buildFinalData b2) fk2).2]
            simp only [List.length_singleton] at hfl
            simp only [List.length_nil]
            omega
          · have hflc : List.filter (fun a => a.userId == u2 && a.rewardId == r2)
                [(serializerCreate db2 uid2 (buildFinalData b2) fk2).2] = [] := by
              simp only [Bool.not_eq_true] at hm
              simp [List.filter_cons, hm]
            rw [hflc]
            simp only [List.length_nil]
            omega
        · have hdb : (finalPost db2 uid2 b2 sess2 fk2).db = db2 := by
            unfold finalPost
            simp only [Bool.not_eq_true] at hval2
            simp [hfind2, hdup2, hval2]
          rw [hdb]
          exact hle

/-- Witness: the sample store where user 7 already holds an Application for
reward 5 rejects the re-submission of the sample bucket with the duplicate
message and stays unchanged. -/
theorem finalPost_duplicate_guard_witness :
    ((finalPost sampleDbDup 7 sampleBucket none sampleFileOk).resp =
      ⟨400, false, "Siz ushbu mukofot uchun allaqachon ariza topshirgansiz"⟩) ∧
    ((finalPost sampleDbDup 7 sampleBucket none sampleFileOk).db = sampleDbDup) ∧
    ((finalPost sampleDbDup 7 sampleBucket none sampleFileOk).bucket =
      some sampleBucket) ∧
    ((finalPost sampleDbDup 7 sampleBucket none sampleFileOk).sessionRewardId =
      none) ∧
    (∀ (db2 : Db) (uid2 : Nat) (b2 : Bucket) (sess2 : Option Val)
        (fk2 : String → Bool) (u2 r2 : Nat),
      pairCount db2.apps u2 r2 ≤ 1 →
      pairCount (finalPost db2 uid2 b2 sess2 fk2).db.apps u2 r2 ≤ 1) :=
  finalPost_duplicate_guard sampleDbDup 7 sampleBucket none sampleFileOk 5
    (by decide) (by decide)
    ⟨{ id := 11, userId := 7, rewardId := 5, status := .yuborilgan,
       area := "Andijon", district := "Asaka", neighborhood := "Guliston",
       activity := "Sport", activity_description := "Yutuqlar",
       recommendation_letter := none, source := "web" }, by decide, rfl, rfl⟩

/-- C2 counterexample: submitting the sample bucket, whose second cached
certificate's temporary file cannot be read, still succeeds with 201 and
persists the Application row (and the other certificate) — the failure of
one part of the creation does not leave the state unchanged, so the
existence check and creation are not wrapped in one rollback-on-error
transaction. -/
theorem finalPost_partial_persist :
    sampleFileOk "temp_uploads/bad.pdf" = false ∧
    (∃ m ∈ certsOf sampleStep3, m.file_path = "temp_uploads/bad.pdf") ∧
    (finalPost sampleDbEmpty 7 sampleBucket none sampleFileOk).resp.status = 201 ∧
    (finalPost sampleDbEmpty 7 sampleBucket none sampleFileOk).db.apps ≠
      sampleDbEmpty.apps := by
  refine ⟨rfl, ⟨⟨"cert2.pdf", "temp_uploads/bad.pdf", 200⟩, by decide, rfl⟩, ?_, ?_⟩
  · decide
  · decide

/-- C2 (amended): no transaction wraps final submission.  Whenever the three
steps are cached, no duplicate Application exists and the assembled data
validates, the POST succeeds with 201, appends exactly one Application row,
and creates certificate rows exactly for the cached metadata entries whose
temporary file reads succeed — a failed read is caught and skipped while the
Application row and every other certificate remain persisted. -/
theorem finalPost_no_rollback (db : Db) (uid : Nat) (b : Bucket)
    (sess : Option Val) (fileOk : String → Bool)
    (hsteps : ∀ k ∈ requiredSteps, (b k).isSome)
    (hdup : db.apps.find? (fun a => a.userId == uid &&
      rewardMatches (getVal (payloadOf (b "step1_data")) "reward_id") a) = none)
    (hval : finalValidate db (buildFinalData b) = true) :
    (finalPost db uid b sess fileOk).resp.status = 201 ∧
    (finalPost db uid b sess fileOk).db.apps.length = db.apps.length + 1 ∧
    (finalPost db uid b sess fileOk).db.certs =
      db.certs ++ (certsOf (payloadOf (b "step3_data"))).filterMap
        (fun (m : FileMeta) =>
          if m.file_path ≠ "" ∧ fileOk m.file_path then
            some { applicationId := db.nextAppId, file := m.original_name }
          else none) := by
  rw [finalPost_success_eq db uid b sess fileOk hsteps hdup hval]
  refine ⟨rfl, ?_, ?_⟩
  · rw [serializerCreate_apps]
    simp
  · rw [serializerCreate_certs, buildFinalData_certificates]

/-- Witness: the sample submission with one unreadable certificate file
succeeds, adds one Application row, and stores only the readable
certificate. -/
theorem finalPost_no_rollback_witness :
    (finalPost sampleDbEmpty 7 sampleBucket none sampleFileOk).resp.status = 201 ∧
    (finalPost sampleDbEmpty 7 sampleBucket none sampleFileOk).db.apps.length =
      sampleDbEmpty.apps.length + 1 ∧
    (finalPost sampleDbEmpty 7 sampleBucket none sampleFileOk).db.certs =
      sampleDbEmpty.certs ++
        (certsOf (payloadOf (sampleBucket "step3_data"))).filterMap
          (fun (m : FileMeta) =>
            if m.file_path ≠ "" ∧ sampleFileOk m.file_path then
              some { applicationId := sampleDbEmpty.nextAppId,
                     file := m.original_name }
            else none) :=
  finalPost_no_rollback sampleDbEmpty 7 sampleBucket none sampleFileOk
    (by decide) (by decide) (by decide)
